import Mathlib

/-!
Verification of the weather-dashboard single-page app (src/src/App.js).

The React component is embedded shallowly:
  - the five `useState` fields become the record `AppState`;
  - `fetchWeatherData` becomes a pure state transformer; the single
    asynchronous `axios.get` is modelled by a `FetchOutcome` parameter
    supplied by the environment (the response the network would return),
    and the list of URLs actually requested is returned alongside the
    new state;
  - JavaScript truthiness of the optional strings involved
    (`API_KEY`, `err.message`, `err.response.data.error.message`, the
    `error` display state) is modelled by `jsTruthyStr`: a string value
    is truthy iff it is present and nonempty;
  - the `useEffect` with dependency array `[city, API_KEY]` (source
    comment: re-run if city or API_KEY changes) is modelled in
    `stepApp`: a form submission re-runs the effect iff the committed
    city actually changed (`API_KEY` is fixed for a run);
  - reading `data.forecast.forecastday` when `data.forecast` is absent
    throws a TypeError whose message is the V8 text; control then moves
    to the catch block, exactly as in the source.
Fetch attempts are modelled as non-overlapping; the unguarded race
between overlapping in-flight requests acknowledged by the design notes
is outside the scope of these claims.
-/

/-- JavaScript truthiness for an optional string value: `none` models
`undefined`/`null`, and the empty string is falsy. -/
def jsTruthyStr : Option String → Bool
  | none => false
  | some s => s != ""

/-- `current.condition` object: `{text, icon}`. -/
structure Condition where
  text : String
  icon : String
deriving DecidableEq

/-- The `data.current` record displayed in the current-conditions card. -/
structure Current where
  temp_f : Int
  condition : Condition
  humidity : Int
  wind_mph : Int
  wind_dir : String
deriving DecidableEq

/-- Per-day aggregate block `day.day`: `{avgtemp_f, maxtemp_f, mintemp_f}`. -/
structure DayStats where
  avgtemp_f : Int
  maxtemp_f : Int
  mintemp_f : Int
deriving DecidableEq

/-- One entry of `data.forecast.forecastday`. -/
structure ForecastDay where
  date : String
  day : DayStats
deriving DecidableEq

/-- The `data.forecast` object; its `forecastday` field is the series. -/
structure ForecastObj where
  forecastday : List ForecastDay
deriving DecidableEq

/-- The body `data` of a successful HTTP response. `current` and
`forecast` are optional: an absent field reads as `undefined`. -/
structure RespData where
  current : Option Current
  forecast : Option ForecastObj
deriving DecidableEq

/-- `err.response.data` of a failed request: may carry a structured
`error` object whose `message` may itself be absent. -/
structure ErrBody where
  error : Option (Option String)
deriving DecidableEq

/-- `err.response` of a failed request: its `data` field may be absent. -/
structure ErrResponse where
  data : Option ErrBody
deriving DecidableEq

/-- The error value `err` caught by the catch block: an optional
HTTP response and an optional transport-level `message`. -/
structure FetchErr where
  response : Option ErrResponse
  message : Option String
deriving DecidableEq

/-- Result of the awaited `axios.get`: either a parsed success body or
a thrown error. -/
inductive FetchOutcome where
  | success (data : RespData)
  | failure (err : FetchErr)
deriving DecidableEq

/-- The five `useState` fields of the component. -/
structure AppState where
  city : String
  inputCity : String
  currentWeatherData : Option Current
  forecastData : List ForecastDay
  error : Option String
deriving DecidableEq

/-- Initial state: both city fields default to "London", the three
display states empty. -/
def initialState : AppState :=
  { city := "London", inputCity := "London",
    currentWeatherData := none, forecastData := [], error := none }

/-- The fixed configuration-missing message (App.js line 42). -/
def apiKeyMissingMsg : String :=
  "API Key is missing. Please set REACT_APP_WEATHERAPI_KEY in your .env file."

/-- The fixed fallback message (App.js line 70). -/
def unknownErrorMsg : String :=
  "An unknown error occurred while fetching weather data."

/-- The request URL template of App.js line 53: plain template-literal
interpolation of the key and the city. -/
def buildURL (apiKey : String) (selectedCity : String) : String :=
  "https://api.weatherapi.com/v1/forecast.json?key=" ++ apiKey ++
    "&q=" ++ selectedCity ++ "&days=7"

/-- The value of the `&&` chain
`err.response && err.response.data && err.response.data.error &&
err.response.data.error.message`: `some m` when every link is present
(`m` itself may still be the falsy empty string), `none` when some link
is absent. -/
def structuredMessage (e : FetchErr) : Option String :=
  match e.response with
  | none => none
  | some r =>
    match r.data with
    | none => none
    | some d =>
      match d.error with
      | none => none
      | some o =>
        match o with
        | none => none
        | some m => some m

/-- The `||` chain of App.js lines 68-70: first truthy value among the
structured API message, the transport message, and the fallback. -/
def pickErrorMessage (e : FetchErr) : String :=
  match structuredMessage e with
  | some m => if m != "" then m else
      match e.message with
      | some t => if t != "" then t else unknownErrorMsg
      | none => unknownErrorMsg
  | none =>
      match e.message with
      | some t => if t != "" then t else unknownErrorMsg
      | none => unknownErrorMsg

/-- The catch block (App.js lines 65-74): set `error` by the message
precedence chain, null out `currentWeatherData`, empty `forecastData`. -/
def applyCatch (s : AppState) (e : FetchErr) : AppState :=
  { s with error := some (pickErrorMessage e),
           currentWeatherData := none, forecastData := [] }

/-- V8 message of the TypeError thrown by reading
`data.forecast.forecastday` when `data.forecast` is `undefined`. -/
def forecastdayTypeErrorMsg : String :=
  "Cannot read properties of undefined (reading 'forecastday')"

/-- The error object thrown inside the try block when `data.forecast`
is absent: a TypeError, so it has no HTTP `response` field. -/
def forecastdayTypeError : FetchErr :=
  { response := none, message := some forecastdayTypeErrorMsg }

/-- The try block (App.js lines 55-63) applied to a parsed success
body: `setCurrentWeatherData(data.current)` runs first; then reading
`data.forecast.forecastday` either stores the series or throws, moving
control to the catch block. -/
def applySuccess (s : AppState) (data : RespData) : AppState :=
  let s1 := { s with currentWeatherData := data.current }
  match data.forecast with
  | some f => { s1 with forecastData := f.forecastday }
  | none => applyCatch s1 forecastdayTypeError

/-- `fetchWeatherData` (App.js lines 39-75). Returns the new state and
the list of request URLs issued. The missing-key guard returns before
the state-clearing lines 47-49; otherwise the three display states are
cleared, one GET is issued, and the outcome is applied. -/
def fetchWeatherData (apiKey : Option String) (selectedCity : String)
    (outcome : FetchOutcome) (s : AppState) : AppState × List String :=
  if jsTruthyStr apiKey = false then
    ({ s with error := some apiKeyMissingMsg }, [])
  else
    let s1 := { s with error := none, currentWeatherData := none,
                       forecastData := [] }
    let url := buildURL (apiKey.getD "") selectedCity
    match outcome with
    | .success data => (applySuccess s1 data, [url])
    | .failure err => (applyCatch s1 err, [url])

/-- One dataset of the Chart.js `chartData` object. -/
structure ChartDataset where
  label : String
  data : List Int
  fill : Bool
  borderColor : String
  backgroundColor : String
  tension : Rat
  pointRadius : Nat
  pointBackgroundColor : String
  pointBorderColor : String
  pointHoverRadius : Nat
deriving DecidableEq

/-- The Chart.js `chartData` object: labels plus three datasets. -/
structure ChartData where
  labels : List String
  datasets : List ChartDataset
deriving DecidableEq

/-- `chartData` (App.js lines 89-129): x-axis labels are the dates, the
three y-series map the raw per-day average/max/min temperatures. -/
def chartData (forecastData : List ForecastDay) : ChartData :=
  { labels := forecastData.map (fun day => day.date),
    datasets := [
      { label := "Avg. Temperature (°F)",
        data := forecastData.map (fun day => day.day.avgtemp_f),
        fill := false,
        borderColor := "rgb(75, 192, 192)",
        backgroundColor := "rgba(75, 192, 192, 0.5)",
        tension := (2 : Rat) / 5,
        pointRadius := 5,
        pointBackgroundColor := "rgb(75, 192, 192)",
        pointBorderColor := "#fff",
        pointHoverRadius := 7 },
      { label := "Max Temperature (°F)",
        data := forecastData.map (fun day => day.day.maxtemp_f),
        fill := false,
        borderColor := "rgb(255, 99, 132)",
        backgroundColor := "rgba(255, 99, 132, 0.5)",
        tension := (2 : Rat) / 5,
        pointRadius := 5,
        pointBackgroundColor := "rgb(255, 99, 132)",
        pointBorderColor := "#fff",
        pointHoverRadius := 7 },
      { label := "Min Temperature (°F)",
        data := forecastData.map (fun day => day.day.mintemp_f),
        fill := false,
        borderColor := "rgb(54, 162, 235)",
        backgroundColor := "rgba(54, 162, 235, 0.5)",
        tension := (2 : Rat) / 5,
        pointRadius := 5,
        pointBackgroundColor := "rgb(54, 162, 235)",
        pointBorderColor := "#fff",
        pointHoverRadius := 7 }
    ] }

/-- `handleSubmit` (App.js lines 83-86): copy the draft `inputCity`
into the committed `city`. -/
def handleSubmit (s : AppState) : AppState :=
  { s with city := s.inputCity }

/-- Render guard of App.js line 213: `error && ...`, JS truthiness. -/
def showErrorBanner (s : AppState) : Bool :=
  jsTruthyStr s.error

/-- Render guard of App.js line 216: `currentWeatherData && ...`; an
object value is always truthy, so this is presence. -/
def showWeatherCard (s : AppState) : Bool :=
  s.currentWeatherData.isSome

/-- Render guard of App.js line 228: `forecastData.length > 0`. -/
def showChart (s : AppState) : Bool :=
  s.forecastData.length > 0

/-- Events driving one run of the component after mount: editing the
text input, or submitting the form. A submission carries the outcome
the network would return should a fetch be issued. -/
inductive AppEvent where
  | typeCity (v : String)
  | submit (outcome : FetchOutcome)
deriving DecidableEq

/-- Result of one event step: the new state, the cities for which
`fetchWeatherData` was invoked this step, and the URLs requested. -/
structure StepResult where
  state : AppState
  fetchCalls : List String
  requests : List String
deriving DecidableEq

/-- One event step. Typing only edits the draft. Submitting runs
`handleSubmit`; the `useEffect` with dependency array `[city, API_KEY]`
then re-runs `fetchWeatherData` iff the committed city changed
(`API_KEY` is fixed within a run). -/
def stepApp (apiKey : Option String) (s : AppState) (e : AppEvent) :
    StepResult :=
  match e with
  | .typeCity v => { state := { s with inputCity := v }, fetchCalls := [], requests := [] }
  | .submit outcome =>
    let s1 := handleSubmit s
    if s1.city = s.city then
      { state := s1, fetchCalls := [], requests := [] }
    else
      let r := fetchWeatherData apiKey s1.city outcome s1
      { state := r.1, fetchCalls := [s1.city], requests := r.2 }

/-- Mount: the `useEffect` runs once with the default city. -/
def mountApp (apiKey : Option String) (outcome : FetchOutcome) :
    AppState × List String :=
  fetchWeatherData apiKey initialState.city outcome initialState

/-- The state after mounting with `mountOutcome` and then processing
`events` in order. -/
def runApp (apiKey : Option String) (mountOutcome : FetchOutcome)
    (events : List AppEvent) : AppState :=
  events.foldl (fun s e => (stepApp apiKey s e).state)
    (mountApp apiKey mountOutcome).1

/-- The display-exclusivity invariant: whenever `error` is set, the
current-conditions record is absent and the forecast series is empty
(contrapositive: populated data forces an absent error). -/
def displayExclusive (s : AppState) : Prop :=
  s.error.isSome → s.currentWeatherData = none ∧ s.forecastData = []

/-- Strengthened run invariant: display exclusivity, plus with a falsy
key the data states are never populated, plus every stored error
message is nonempty (so it is JS-truthy). -/
def goodState (apiKey : Option String) (s : AppState) : Prop :=
  displayExclusive s ∧
  (jsTruthyStr apiKey = false → s.currentWeatherData = none ∧ s.forecastData = []) ∧
  s.error ≠ some ""

theorem pickErrorMessage_ne_empty (e : FetchErr) : pickErrorMessage e ≠ "" := by
  unfold pickErrorMessage
  cases hs : structuredMessage e with
  | some m =>
    by_cases hm : m = ""
    · subst hm
      simp only [bne_self_eq_false, if_false]
      cases ht : e.message with
      | some t =>
        by_cases htt : t = "" <;> simp [htt, unknownErrorMsg]
      | none => simp [unknownErrorMsg]
    · simp [bne_iff_ne, hm]
  | none =>
    cases ht : e.message with
    | some t =>
      by_cases htt : t = "" <;> simp [htt, unknownErrorMsg]
    | none => simp [unknownErrorMsg]

theorem applyCatch_city (s : AppState) (e : FetchErr) :
    (applyCatch s e).city = s.city := rfl

theorem applySuccess_city (s : AppState) (d : RespData) :
    (applySuccess s d).city = s.city := by
  unfold applySuccess
  cases d.forecast <;> rfl

theorem fetchWeatherData_city (apiKey : Option String) (c : String)
    (o : FetchOutcome) (s : AppState) :
    (fetchWeatherData apiKey c o s).1.city = s.city := by
  unfold fetchWeatherData
  by_cases hk : jsTruthyStr apiKey = false
  · simp [hk]
  · cases o with
    | success data => simp [hk, applySuccess_city]
    | failure err => simp [hk, applyCatch_city]

theorem goodState_applyCatch (apiKey : Option String)
    (hk : jsTruthyStr apiKey = true) (s : AppState) (e : FetchErr) :
    goodState apiKey (applyCatch s e) := by
  refine ⟨fun _ => ⟨rfl, rfl⟩, fun hf => absurd hk (by simp [hf]), ?_⟩
  simp only [applyCatch, ne_eq, Option.some.injEq]
  exact pickErrorMessage_ne_empty e

theorem goodState_fetch (apiKey : Option String) (c : String)
    (o : FetchOutcome) (s : AppState) (h : goodState apiKey s) :
    goodState apiKey (fetchWeatherData apiKey c o s).1 := by
  unfold fetchWeatherData
  by_cases hk : jsTruthyStr apiKey = false
  · simp only [hk, if_true]
    exact ⟨fun _ => h.2.1 hk, fun _ => h.2.1 hk, by simp [apiKeyMissingMsg]⟩
  · have hk1 : jsTruthyStr apiKey = true := by
      cases hkk : jsTruthyStr apiKey
      · exact absurd hkk hk
      · rfl
    simp only [hk, if_false]
    cases o with
    | success data =>
      simp only
      unfold applySuccess
      cases data.forecast with
      | some f =>
        exact ⟨fun hcon => absurd hcon (by simp [displayExclusive]),
          fun hf => absurd hk1 (by simp [hf]), by simp⟩
      | none => exact goodState_applyCatch apiKey hk1 _ _
    | failure err => exact goodState_applyCatch apiKey hk1 _ _

theorem goodState_initial (apiKey : Option String) :
    goodState apiKey initialState :=
  ⟨fun h => absurd h (by simp [initialState]), fun _ => ⟨rfl, rfl⟩,
    by simp [initialState]⟩

theorem goodState_step (apiKey : Option String) (s : AppState)
    (e : AppEvent) (h : goodState apiKey s) :
    goodState apiKey (stepApp apiKey s e).state := by
  cases e with
  | typeCity v => exact h
  | submit o =>
    unfold stepApp
    by_cases hc : (handleSubmit s).city = s.city
    · simpa [hc] using h
    · simp only [hc, if_false]
      exact goodState_fetch apiKey _ o _ h

theorem goodState_foldl (apiKey : Option String) (events : List AppEvent)
    (s : AppState) (h : goodState apiKey s) :
    goodState apiKey
      (events.foldl (fun s e => (stepApp apiKey s e).state) s) := by
  induction events generalizing s with
  | nil => exact h
  | cons e es ih => exact ih _ (goodState_step apiKey s e h)

theorem goodState_run (apiKey : Option String) (mo : FetchOutcome)
    (events : List AppEvent) :
    goodState apiKey (runApp apiKey mo events) :=
  goodState_foldl apiKey events _
    (goodState_fetch apiKey initialState.city mo initialState
      (goodState_initial apiKey))

theorem fetch_failure_error (apiKey : Option String) (c : String)
    (e : FetchErr) (s : AppState) (hk : jsTruthyStr apiKey = true) :
    (fetchWeatherData apiKey c (.failure e) s).1.error =
      some (pickErrorMessage e) := by
  simp [fetchWeatherData, hk, applyCatch]

theorem pickErrorMessage_structured (e : FetchErr) (m : String)
    (hs : structuredMessage e = some m) (hm : m ≠ "") :
    pickErrorMessage e = m := by
  unfold pickErrorMessage
  simp [hs, bne_iff_ne, hm]

theorem pickErrorMessage_transport (e : FetchErr)
    (hs : jsTruthyStr (structuredMessage e) = false) (t : String)
    (ht : e.message = some t) (htt : t ≠ "") :
    pickErrorMessage e = t := by
  unfold pickErrorMessage
  cases hsm : structuredMessage e with
  | some m =>
    have hm : m = "" := by
      rw [hsm] at hs
      simpa [jsTruthyStr, bne_iff_ne] using hs
    subst hm
    simp [ht, bne_iff_ne, htt]
  | none => simp [ht, bne_iff_ne, htt]

theorem pickErrorMessage_fallback (e : FetchErr)
    (hs : jsTruthyStr (structuredMessage e) = false)
    (ht : jsTruthyStr e.message = false) :
    pickErrorMessage e = unknownErrorMsg := by
  unfold pickErrorMessage
  cases hsm : structuredMessage e with
  | some m =>
    have hm : m = "" := by
      rw [hsm] at hs
      simpa [jsTruthyStr, bne_iff_ne] using hs
    subst hm
    cases htm : e.message with
    | some t =>
      have htt : t = "" := by
        rw [htm] at ht
        simpa [jsTruthyStr, bne_iff_ne] using ht
      simp [htt]
    | none => simp
  | none =>
    cases htm : e.message with
    | some t =>
      have htt : t = "" := by
        rw [htm] at ht
        simpa [jsTruthyStr, bne_iff_ne] using ht
      simp [htt]
    | none => simp

/-- The state-clearing lines 47-49 of App.js in isolation. -/
def clearDisplay (s : AppState) : AppState :=
  { s with error := none, currentWeatherData := none, forecastData := [] }

/-- A concrete prior state with populated current conditions and a
populated forecast series, used to exercise the missing-key path. -/
def priorPopulatedState : AppState :=
  { city := "London", inputCity := "London",
    currentWeatherData := some ⟨70, ⟨"Sunny", "icon.png"⟩, 40, 5, "NW"⟩,
    forecastData := [⟨"2026-10-11", ⟨60, 70, 50⟩⟩],
    error := none }

/-- C1 counterexample: with a missing API key, `fetchWeatherData`
returns before the state-clearing lines, so from a prior state with
populated current conditions and forecast it sets the error yet leaves
both data states populated — the claim that every invocation clears all
three display states first is false for the missing-credential case. -/
theorem fetch_missing_key_does_not_clear_cex :
    (fetchWeatherData none "Paris" (.failure ⟨none, some "boom"⟩)
        priorPopulatedState).1.forecastData = priorPopulatedState.forecastData ∧
    priorPopulatedState.forecastData ≠ [] ∧
    (fetchWeatherData none "Paris" (.failure ⟨none, some "boom"⟩)
        priorPopulatedState).1.currentWeatherData = priorPopulatedState.currentWeatherData ∧
    priorPopulatedState.currentWeatherData ≠ none ∧
    (fetchWeatherData none "Paris" (.failure ⟨none, some "boom"⟩)
        priorPopulatedState).1.error = some apiKeyMissingMsg := by
  decide

/-- C1 (amended): when a credential is configured (JS-truthy API key),
`fetchWeatherData` clears all three display states before the outcome
is applied — its result does not depend on the prior display states;
when the credential is missing, it only sets `error` to the fixed
configuration message and leaves the prior current conditions and
forecast untouched. -/
theorem fetch_clears_only_with_key (apiKey : Option String) (c : String)
    (o : FetchOutcome) (s : AppState) :
    (jsTruthyStr apiKey = true →
      (fetchWeatherData apiKey c o s).1 =
        (fetchWeatherData apiKey c o (clearDisplay s)).1) ∧
    (jsTruthyStr apiKey = false →
      (fetchWeatherData apiKey c o s).1 =
        { s with error := some apiKeyMissingMsg }) := by
  constructor
  · intro hk
    simp [fetchWeatherData, hk, clearDisplay]
  · intro hk
    simp [fetchWeatherData, hk]

theorem fetch_clears_only_with_key_witness :
    (fetchWeatherData (some "K") "Paris" (.failure ⟨none, some "boom"⟩)
        priorPopulatedState).1 =
      (fetchWeatherData (some "K") "Paris" (.failure ⟨none, some "boom"⟩)
        (clearDisplay priorPopulatedState)).1 ∧
    (fetchWeatherData none "Paris" (.failure ⟨none, some "boom"⟩)
        priorPopulatedState).1 =
      { priorPopulatedState with error := some apiKeyMissingMsg } :=
  ⟨(fetch_clears_only_with_key (some "K") "Paris" (.failure ⟨none, some "boom"⟩)
      priorPopulatedState).1 (by decide),
   (fetch_clears_only_with_key none "Paris" (.failure ⟨none, some "boom"⟩)
      priorPopulatedState).2 (by decide)⟩

/-- C2: for every failed fetch with a configured key, the stored error
message follows the exact precedence: a present nonempty structured API
message is surfaced; otherwise a present nonempty transport message is
surfaced; otherwise the fixed fallback string is surfaced. -/
theorem fetch_error_message_precedence (apiKey : Option String)
    (c : String) (e : FetchErr) (s : AppState)
    (hk : jsTruthyStr apiKey = true) :
    (∀ m, structuredMessage e = some m → m ≠ "" →
      (fetchWeatherData apiKey c (.failure e) s).1.error = some m) ∧
    (jsTruthyStr (structuredMessage e) = false →
      ∀ t, e.message = some t → t ≠ "" →
        (fetchWeatherData apiKey c (.failure e) s).1.error = some t) ∧
    (jsTruthyStr (structuredMessage e) = false →
      jsTruthyStr e.message = false →
        (fetchWeatherData apiKey c (.failure e) s).1.error =
          some unknownErrorMsg) := by
  refine ⟨fun m hs hm => ?_, fun hs t ht htt => ?_, fun hs ht => ?_⟩
  · rw [fetch_failure_error apiKey c e s hk,
      pickErrorMessage_structured e m hs hm]
  · rw [fetch_failure_error apiKey c e s hk,
      pickErrorMessage_transport e hs t ht htt]
  · rw [fetch_failure_error apiKey c e s hk,
      pickErrorMessage_fallback e hs ht]

theorem fetch_error_message_precedence_witness :
    (fetchWeatherData (some "K") "London"
      (.failure ⟨some ⟨some ⟨some (some "No matching location found.")⟩⟩,
        some "Request failed with status code 400"⟩)
      initialState).1.error = some "No matching location found." ∧
    (fetchWeatherData (some "K") "London"
      (.failure ⟨none, some "Network Error"⟩)
      initialState).1.error = some "Network Error" ∧
    (fetchWeatherData (some "K") "London"
      (.failure ⟨none, none⟩)
      initialState).1.error = some unknownErrorMsg := by
  refine ⟨?_, ?_, ?_⟩
  · exact (fetch_error_message_precedence (some "K") "London"
      ⟨some ⟨some ⟨some (some "No matching location found.")⟩⟩,
        some "Request failed with status code 400"⟩ initialState
      (by decide)).1 "No matching location found." (by decide) (by decide)
  · exact (fetch_error_message_precedence (some "K") "London"
      ⟨none, some "Network Error"⟩ initialState (by decide)).2.1
      (by decide) "Network Error" (by decide) (by decide)
  · exact (fetch_error_message_precedence (some "K") "London"
      ⟨none, none⟩ initialState (by decide)).2.2 (by decide) (by decide)

/-- C3: with no configured credential (a JS-falsy API key), every
invocation of `fetchWeatherData` sets the error to the fixed
configuration-missing message and issues no request at all. -/
theorem fetch_missing_key_no_request (apiKey : Option String)
    (c : String) (o : FetchOutcome) (s : AppState)
    (hk : jsTruthyStr apiKey = false) :
    fetchWeatherData apiKey c o s =
      ({ s with error := some apiKeyMissingMsg }, []) := by
  simp [fetchWeatherData, hk]

theorem fetch_missing_key_no_request_witness :
    fetchWeatherData none "London" (.failure ⟨none, none⟩) initialState =
      ({ initialState with error := some apiKeyMissingMsg }, []) :=
  fetch_missing_key_no_request none "London" (.failure ⟨none, none⟩)
    initialState rfl

/-- The failed HTTP response whose structured body has
`error.message` equal to "No matching location found.". -/
def noMatchFailure : FetchErr :=
  ⟨some ⟨some ⟨some (some "No matching location found.")⟩⟩,
    some "Request failed with status code 400"⟩

/-- C5: when the fetch fails with the structured body whose
`error.message` is "No matching location found.", the resulting error
is exactly that string, the current conditions are absent and the
forecast series is empty. -/
theorem fetch_no_matching_location (apiKey : Option String) (c : String)
    (s : AppState) (hk : jsTruthyStr apiKey = true) :
    (fetchWeatherData apiKey c (.failure noMatchFailure) s).1.error =
        some "No matching location found." ∧
    (fetchWeatherData apiKey c (.failure noMatchFailure) s).1.currentWeatherData
        = none ∧
    (fetchWeatherData apiKey c (.failure noMatchFailure) s).1.forecastData
        = [] := by
  refine ⟨?_, ?_, ?_⟩ <;>
    simp [fetchWeatherData, hk, applyCatch, noMatchFailure,
      pickErrorMessage, structuredMessage]

theorem fetch_no_matching_location_witness :
    (fetchWeatherData (some "K") "Zzzzz" (.failure noMatchFailure)
        priorPopulatedState).1.error = some "No matching location found." ∧
    (fetchWeatherData (some "K") "Zzzzz" (.failure noMatchFailure)
        priorPopulatedState).1.currentWeatherData = none ∧
    (fetchWeatherData (some "K") "Zzzzz" (.failure noMatchFailure)
        priorPopulatedState).1.forecastData = [] :=
  fetch_no_matching_location (some "K") "Zzzzz" priorPopulatedState rfl

/-- C4: after mounting and any sequence of typing and submit events
(each completed fetch attempt applied atomically, with the fixed key of
the run), the display states are exclusive: whenever the error is set,
the current conditions are absent and the forecast series is empty, and
whenever either data state is populated, the error is absent. -/
theorem display_exclusive_after_run (apiKey : Option String)
    (mo : FetchOutcome) (events : List AppEvent) :
    displayExclusive (runApp apiKey mo events) ∧
    ((runApp apiKey mo events).currentWeatherData.isSome ∨
        (runApp apiKey mo events).forecastData ≠ [] →
      (runApp apiKey mo events).error = none) := by
  have h := (goodState_run apiKey mo events).1
  refine ⟨h, fun hd => ?_⟩
  cases herr : (runApp apiKey mo events).error with
  | none => rfl
  | some m =>
    have h2 := h (by simp [herr])
    rcases hd with hc | hf
    · rw [h2.1] at hc
      simp at hc
    · exact absurd h2.2 hf

/-- C8: in every state reachable by a run, the three render guards are
exact: the error banner shows iff the error state is set, the
current-conditions card shows iff the current conditions are present,
and the chart shows iff the forecast series has at least one entry. -/
theorem render_guards_after_run (apiKey : Option String)
    (mo : FetchOutcome) (events : List AppEvent) :
    (showErrorBanner (runApp apiKey mo events) = true ↔
      (runApp apiKey mo events).error.isSome = true) ∧
    (showWeatherCard (runApp apiKey mo events) = true ↔
      (runApp apiKey mo events).currentWeatherData.isSome = true) ∧
    (showChart (runApp apiKey mo events) = true ↔
      (runApp apiKey mo events).forecastData ≠ []) := by
  have hne := (goodState_run apiKey mo events).2.2
  refine ⟨?_, Iff.rfl, ?_⟩
  · unfold showErrorBanner
    cases herr : (runApp apiKey mo events).error with
    | none => simp [jsTruthyStr]
    | some m =>
      have hm : m ≠ "" := fun hh => hne (by rw [herr, hh])
      simp [jsTruthyStr, bne_iff_ne, hm]
  · unfold showChart
    cases (runApp apiKey mo events).forecastData with
    | nil => simp
    | cons a l => simp

/-- C6: the chart projection of a forecast series of length at most 7
produces exactly the dates as x-axis labels (one per entry, in series
order) and exactly three y-series, mapping the raw per-day average,
max and min temperatures (no aggregation, no unit conversion), each
with one point per entry in the same order. -/
theorem chartData_projection (fd : List ForecastDay)
    (hn : fd.length ≤ 7) :
    (chartData fd).labels = fd.map (fun d => d.date) ∧
    (chartData fd).labels.length = fd.length ∧
    (chartData fd).datasets.length = 3 ∧
    (chartData fd).datasets.map (fun ds => ds.data) =
      [fd.map (fun d => d.day.avgtemp_f),
       fd.map (fun d => d.day.maxtemp_f),
       fd.map (fun d => d.day.mintemp_f)] ∧
    ∀ ds ∈ (chartData fd).datasets, ds.data.length = fd.length := by
  refine ⟨rfl, by simp [chartData], rfl, rfl, ?_⟩
  intro ds hds
  simp only [chartData, List.mem_cons, List.not_mem_nil, or_false] at hds
  rcases hds with h | h | h <;> subst h <;> simp

/-- A concrete two-day forecast series. -/
def sampleForecast : List ForecastDay :=
  [⟨"2026-10-11", ⟨60, 70, 50⟩⟩, ⟨"2026-10-12", ⟨61, 71, 51⟩⟩]

theorem chartData_projection_witness :
    (chartData sampleForecast).labels =
      sampleForecast.map (fun d => d.date) ∧
    (chartData sampleForecast).labels.length = sampleForecast.length ∧
    (chartData sampleForecast).datasets.length = 3 ∧
    (chartData sampleForecast).datasets.map (fun ds => ds.data) =
      [sampleForecast.map (fun d => d.day.avgtemp_f),
       sampleForecast.map (fun d => d.day.maxtemp_f),
       sampleForecast.map (fun d => d.day.mintemp_f)] ∧
    ∀ ds ∈ (chartData sampleForecast).datasets,
      ds.data.length = sampleForecast.length :=
  chartData_projection sampleForecast (by decide)

/-- C7 counterexample: submitting when the draft city equals the
committed city (both "London") leaves the dependency array of the
effect unchanged, so zero fetch invocations are triggered — refuting
the claim that exactly one fetch is triggered also in this case. -/
theorem submit_same_city_no_fetch_cex :
    initialState.inputCity = initialState.city ∧
    (stepApp (some "K") initialState
        (.submit (.failure ⟨none, some "boom"⟩))).state.city = "London" ∧
    (stepApp (some "K") initialState
        (.submit (.failure ⟨none, some "boom"⟩))).fetchCalls = [] := by
  decide

/-- C7 (amended): submitting always commits the draft city to
SelectedCity; it triggers exactly one fetch invocation for the draft
when it differs from the committed city, and none when it is equal,
because the effect's dependency array is then unchanged. -/
theorem submit_commit_and_fetch_count (apiKey : Option String)
    (s : AppState) (o : FetchOutcome) :
    (stepApp apiKey s (.submit o)).state.city = s.inputCity ∧
    (s.inputCity ≠ s.city →
      (stepApp apiKey s (.submit o)).fetchCalls = [s.inputCity]) ∧
    (s.inputCity = s.city →
      (stepApp apiKey s (.submit o)).fetchCalls = []) := by
  unfold stepApp handleSubmit
  by_cases hc : s.inputCity = s.city
  · simp [hc]
  · simp [hc, fetchWeatherData_city]

theorem submit_commit_and_fetch_count_witness :
    (stepApp (some "K") { initialState with inputCity := "Paris" }
        (.submit (.failure ⟨none, some "boom"⟩))).state.city = "Paris" ∧
    (stepApp (some "K") { initialState with inputCity := "Paris" }
        (.submit (.failure ⟨none, some "boom"⟩))).fetchCalls = ["Paris"] := by
  have h := submit_commit_and_fetch_count (some "K")
    { initialState with inputCity := "Paris" }
    (.failure ⟨none, some "boom"⟩)
  exact ⟨h.1, h.2.1 (by decide)⟩

/-- Percent-encoding of the URL-reserved characters named by the
claim, as encodeURIComponent produces for them; identity on all other
characters. Spec-side model, for comparison with `buildURL`. -/
def percentEncodeChar (c : Char) : String :=
  if c = '&' then "%26" else if c = '#' then "%23" else String.singleton c

/-- Spec-side model of encodeURIComponent restricted to the reserved
characters the claim names. -/
def encodeURIComponentModel (s : String) : String :=
  String.join (s.toList.map percentEncodeChar)

/-- URL construction as the spec describes it, with the city
percent-encoded before interpolation. Spec-side model for the
refinement comparison, not the source behavior. -/
def specBuildURL (apiKey : String) (city : String) : String :=
  "https://api.weatherapi.com/v1/forecast.json?key=" ++ apiKey ++
    "&q=" ++ encodeURIComponentModel city ++ "&days=7"

/-- C9 counterexample: for the city "a&b" the source builds the URL
with the raw ampersand interpolated into the query string, not the
percent-encoded form the spec describes, so the URL-encoding part of
the claim is false. -/
theorem buildURL_not_percent_encoded_cex :
    buildURL "KEY" "a&b" =
      "https://api.weatherapi.com/v1/forecast.json?key=KEY&q=a&b&days=7" ∧
    specBuildURL "KEY" "a&b" =
      "https://api.weatherapi.com/v1/forecast.json?key=KEY&q=a%26b&days=7" ∧
    buildURL "KEY" "a&b" ≠ specBuildURL "KEY" "a&b" := by
  refine ⟨rfl, ?_, ?_⟩ <;> decide

/-- C9 (amended): with a configured key the fetch issues exactly one
GET whose URL is the forecast endpoint requesting 7 days, with the key
and the city interpolated verbatim into the query string — no
validation, no normalization, and no percent-encoding. -/
theorem fetch_single_request_verbatim_city (apiKey : Option String)
    (c : String) (o : FetchOutcome) (s : AppState)
    (hk : jsTruthyStr apiKey = true) :
    (fetchWeatherData apiKey c o s).2 =
      ["https://api.weatherapi.com/v1/forecast.json?key=" ++
        apiKey.getD "" ++ "&q=" ++ c ++ "&days=7"] := by
  unfold fetchWeatherData buildURL
  simp only [hk, Bool.true_eq_false, if_false]
  cases o <;> rfl

theorem fetch_single_request_verbatim_city_witness :
    (fetchWeatherData (some "KEY") "a&b" (.failure ⟨none, none⟩)
        initialState).2 =
      ["https://api.weatherapi.com/v1/forecast.json?key=KEY&q=a&b&days=7"] := by
  rw [fetch_single_request_verbatim_city (some "KEY") "a&b"
    (.failure ⟨none, none⟩) initialState rfl]
  decide

/-- C10: with a configured key, an HTTP-success body lacking the
forecast object makes the try block throw (reading
`data.forecast.forecastday` of `undefined`) after the current
conditions were already assigned from `data.current`; the catch block
then sets the error to the TypeError's message text and leaves the
current conditions absent and the forecast series empty — no partially
populated display remains. -/
theorem fetch_missing_forecast_no_partial (apiKey : Option String)
    (c : String) (s : AppState) (cur : Option Current)
    (hk : jsTruthyStr apiKey = true) :
    (fetchWeatherData apiKey c (.success ⟨cur, none⟩) s).1.error =
        some forecastdayTypeErrorMsg ∧
    (fetchWeatherData apiKey c (.success ⟨cur, none⟩) s).1.currentWeatherData
        = none ∧
    (fetchWeatherData apiKey c (.success ⟨cur, none⟩) s).1.forecastData
        = [] := by
  have hmsg : pickErrorMessage forecastdayTypeError = forecastdayTypeErrorMsg := by
    decide
  refine ⟨?_, ?_, ?_⟩ <;>
    simp [fetchWeatherData, hk, applySuccess, applyCatch, hmsg]

theorem fetch_missing_forecast_no_partial_witness :
    (fetchWeatherData (some "K") "London"
        (.success ⟨some ⟨70, ⟨"Sunny", "icon.png"⟩, 40, 5, "NW"⟩, none⟩)
        initialState).1.error = some forecastdayTypeErrorMsg ∧
    (fetchWeatherData (some "K") "London"
        (.success ⟨some ⟨70, ⟨"Sunny", "icon.png"⟩, 40, 5, "NW"⟩, none⟩)
        initialState).1.currentWeatherData = none ∧
    (fetchWeatherData (some "K") "London"
        (.success ⟨some ⟨70, ⟨"Sunny", "icon.png"⟩, 40, 5, "NW"⟩, none⟩)
        initialState).1.forecastData = [] :=
  fetch_missing_forecast_no_partial (some "K") "London" initialState
    (some ⟨70, ⟨"Sunny", "icon.png"⟩, 40, 5, "NW"⟩) rfl
